import Mathlib

/-
Verification of the shutdown-orchestration and readiness-state core of the
k8s-test server (Go). The definitions below are a shallow embedding of the
source files:
  src/unnamed/part_000  (Dockerfile; tracer.go variant with HTTP exporter;
                         main.go with tracer cleanup wired into NewRoutes)
  src/unnamed/part_001  (main.go variant without tracer wiring)
  src/cmd/server/tracer.go (tracer variant with gRPC exporter)
Durations are modelled in nanoseconds (Go time.Duration units); the shutdown
sequence after signal receipt is straight-line code and is modelled as the
list of events it performs, parameterised by whether the transport graceful
shutdown (s.Shutdown) returned an error.
-/

namespace K8sTest

/-- One Go second in nanoseconds (time.Second). -/
def second : Nat := 1000000000

/-- Source constant _shutdownPeriod = 15 * time.Second (part_000 line 131). -/
def shutdownPeriod : Nat := 15 * second

/-- Source constant _shutdownHardPeriod = 3 * time.Second (part_000 line 132). -/
def shutdownHardPeriod : Nat := 3 * second

/-- Source constant _readinessDrainDelay = 5 * time.Second (part_000 line 133). -/
def readinessDrainDelay : Nat := 5 * second

/-! ## Readiness gate (ReadinessHandler, part_000 lines 227-262) -/

/-- State of the ReadinessHandler: the single atomic boolean field
`available` (part_000 line 228). The tracer field carries no state relevant
to the readiness contract. -/
structure ReadinessHandler where
  available : Bool
deriving DecidableEq

/-- NewReadinessHandler: available.Store(true) at construction
(part_000 lines 232-239). -/
def NewReadinessHandler : ReadinessHandler :=
  { available := true }

/-- MakeUnavailable: r.available.Store(false), unconditionally
(part_000 lines 241-243). -/
def MakeUnavailable (_r : ReadinessHandler) : ReadinessHandler :=
  { available := false }

/-- Operations that touch the readiness flag: a probe read (atomic Load) or a
call to MakeUnavailable (atomic Store false). Reads do not mutate state. -/
inductive ReadinessOp where
  | read
  | makeUnavailable
deriving DecidableEq

/-- Effect of one operation on the handler state. -/
def applyOp (r : ReadinessHandler) (op : ReadinessOp) : ReadinessHandler :=
  match op with
  | ReadinessOp.read => r
  | ReadinessOp.makeUnavailable => MakeUnavailable r

/-- State after an arbitrary interleaving of reads and MakeUnavailable calls
(each operation is a single atomic access, so any concurrent history
linearises to such a list). -/
def runOps (r : ReadinessHandler) (ops : List ReadinessOp) : ReadinessHandler :=
  ops.foldl applyOp r

/-! ## Health endpoint (ServeHTTP, part_000 lines 245-262) -/

/-- An HTTP response as produced by a call http.Error(w, body, status). -/
structure Response where
  status : Nat
  body : String
deriving DecidableEq

/-- http.Error(w, msg, code): writes status code `code` and message `msg`. -/
def httpError (msg : String) (code : Nat) : Response :=
  { status := code, body := msg }

/-- ServeHTTP of the ReadinessHandler (part_000 lines 245-262): switch on
available.Load(); true gives http.Error(w, "OK", 200), false gives
http.Error(w, "Shutting down", 503). -/
def ServeHTTP (r : ReadinessHandler) : Response :=
  match r.available with
  | true => httpError "OK" 200
  | false => httpError "Shutting down" 503

/-! ## Shutdown orchestration (main, part_000 lines 145-190)

After <-rootCtx.Done() fires, main is straight-line code. We model the
sequence of observable actions it performs as a list of events. The only
branch is `if err != nil` on the result of s.Shutdown(shutdownCtx); the
parameter `gracefulErr` records whether that call returned an error. -/

/-- Identifier of the context created by
context.WithTimeout(context.Background(), _shutdownPeriod) at part_000
line 176; the same value `shutdownCtx` is passed to both s.Shutdown
(line 179) and cleanup (line 189). -/
def shutdownCtxId : Nat := 1

/-- Observable actions of main during shutdown. -/
inductive Event where
  | signalReceived
  | stopSignals
  | makeUnavailableCall
  | sleep (d : Nat)
  | shutdownCall (ctxId : Nat)
  | shutdownReturn (errored : Bool)
  | stopOngoingCall
  | cleanupCall (ctxId : Nat)
deriving DecidableEq

/-- The event trace of main from signal receipt to the end of the entry
point (part_000 lines 166-190): rootCtx done, stop(), unaliveServer() which
is rh.MakeUnavailable, time.Sleep(_readinessDrainDelay),
s.Shutdown(shutdownCtx), stopOngoingGracefully(), the conditional
time.Sleep(_shutdownHardPeriod) when Shutdown errored, then
cleanup(shutdownCtx). -/
def shutdownSequence (gracefulErr : Bool) : List Event :=
  [Event.signalReceived, Event.stopSignals, Event.makeUnavailableCall,
   Event.sleep readinessDrainDelay,
   Event.shutdownCall shutdownCtxId, Event.shutdownReturn gracefulErr,
   Event.stopOngoingCall]
  ++ (if gracefulErr then [Event.sleep shutdownHardPeriod] else [])
  ++ [Event.cleanupCall shutdownCtxId]

/-- Event `a` occurs in the trace and some occurrence of `b` comes strictly
after the first occurrence of `a`. In the traces of `shutdownSequence` every
event occurs at most once, so this states that `a` precedes `b`. -/
def occursBefore (t : List Event) (a b : Event) : Bool :=
  match t with
  | [] => false
  | x :: rest => if x = a then rest.contains b else occursBefore rest a b

/-- signal.NotifyContext (part_000 line 150): rootCtx becomes done as soon
as at least one SIGINT/SIGTERM arrives; context cancellation is monotonic,
so later signals find it already cancelled. -/
def rootCtxDone (signals : Nat) : Bool :=
  decide (1 ≤ signals)

/-- The run of main as a function of how many SIGINT/SIGTERM signals are
delivered: main blocks forever on <-rootCtx.Done() when no signal arrives
(no trace), and otherwise runs the linear shutdown sequence, which reads no
further signal state. -/
def mainRun (signals : Nat) (gracefulErr : Bool) : Option (List Event) :=
  if rootCtxDone signals then some (shutdownSequence gracefulErr) else none

/-! ## Timing model (part_000 lines 166-189)

Other statements of the sequence take no modelled time; the sleeps and the
blocking Shutdown call account for the elapsed time between signal receipt
and the cleanup invocation. -/

/-- Total nanoseconds spent in time.Sleep calls along a trace. -/
def sleepTotal (t : List Event) : Nat :=
  (t.map fun e => match e with | Event.sleep d => d | _ => 0).sum

/-- Time the s.Shutdown(shutdownCtx) call blocks: shutdownCtx carries
deadline _shutdownPeriod, so on the error path Shutdown returns exactly when
that deadline expires; on the success path it returns once in-flight work
finishes, after some `finish` ≤ shutdownPeriod. -/
def shutdownElapsed (gracefulErr : Bool) (finish : Nat) : Nat :=
  if gracefulErr then shutdownPeriod else finish

/-- Elapsed nanoseconds from signal receipt to the cleanup(shutdownCtx)
invocation: the sleeps of the trace plus the blocking Shutdown call. -/
def timeToCleanup (gracefulErr : Bool) (finish : Nat) : Nat :=
  sleepTotal (shutdownSequence gracefulErr) + shutdownElapsed gracefulErr finish

/-- Absolute deadline (nanoseconds after signal receipt) of shutdownCtx: it
is created right after the drain sleep with timeout _shutdownPeriod
(part_000 line 176). -/
def shutdownCtxDeadline : Nat := readinessDrainDelay + shutdownPeriod

/-- A context with absolute deadline d is expired at time `now` when
d ≤ now; an expired context has no remaining time budget. -/
def ctxExpired (deadlineNs now : Nat) : Bool :=
  decide (deadlineNs ≤ now)

/-- One structured log record as emitted by the cleanup wrapper. -/
structure LogEntry where
  msg : String
  err : Option String
deriving DecidableEq

/-- The cleanup function returned by NewRoutes (part_000 lines 203-214): it
calls cleanupTracer(ctx) and logs the message with suffix " failed" when the
returned error is non-nil and " succeeded" otherwise; it returns normally in
both cases (no panic, no early return, no escalation). -/
def cleanupWrapper (tracerErr : Option String) : LogEntry :=
  { msg := "cleanup tracer" ++ (if tracerErr.isSome then " failed" else " succeeded"),
    err := tracerErr }

/-! ## Tracer construction (src/cmd/server/tracer.go and part_000 newTracer) -/

/-- Outcome of newTracer: either the process aborts via panic(err) at the
named stage, or the function returns tp.Shutdown; `exporterFailed` records
that the exporter constructor had returned an error that was ignored. -/
inductive TracerStart where
  | aborts (stage : String)
  | runs (exporterFailed : Bool)
deriving DecidableEq

namespace CmdServer

/-- newTracer in src/cmd/server/tracer.go (lines 15-45): panics when
resource.New returns an error; the error from otlptracegrpc.New is assigned
to err but never checked, so the function builds the provider on the
exporter value and returns the cleanup even when exporter construction
failed. -/
def newTracer (resourceErr exporterErr : Bool) : TracerStart :=
  if resourceErr then TracerStart.aborts "resource"
  else TracerStart.runs exporterErr

end CmdServer

namespace Part000

/-- newTracer variant in src/unnamed/part_000 (lines 69-102): panics when
resource.New returns an error and also panics when otlptracehttp.New
returns an error. -/
def newTracer (resourceErr exporterErr : Bool) : TracerStart :=
  if resourceErr then TracerStart.aborts "resource"
  else if exporterErr then TracerStart.aborts "exporter"
  else TracerStart.runs false

end Part000

/-- The service-version attribute string built by newTracer:
fmt.Sprintf with verbs filled by Commit then Version, at
src/cmd/server/tracer.go line 16 and part_000 line 70. -/
def serviceVersionString (version commit : String) : String :=
  commit ++ "@" ++ version

/-- Modelled from the spec wording, for comparison: the version identifier
followed by the at-sign followed by the commit identifier. -/
def specServiceVersionString (version commit : String) : String :=
  version ++ "@" ++ commit

/-- Modelled from the amended wording: the commit identifier followed by
the at-sign followed by the version identifier. -/
def amendedServiceVersionString (version commit : String) : String :=
  commit ++ "@" ++ version

end K8sTest

namespace K8sTest

/-- C3: the readiness flag is true at construction; after any MakeUnavailable
call every subsequent read returns false regardless of further operations;
and a MakeUnavailable occurring anywhere in an operation sequence makes the
history equivalent to one where it is the first of the remaining operations
(idempotence under any interleaving with reads). -/
theorem readiness_monotone_idempotent :
    NewReadinessHandler.available = true
    ∧ (∀ (r : ReadinessHandler) (ops : List ReadinessOp),
        (runOps (MakeUnavailable r) ops).available = false)
    ∧ (∀ (r : ReadinessHandler) (l1 l2 : List ReadinessOp),
        runOps r (l1 ++ ReadinessOp.makeUnavailable :: l2)
          = runOps r (ReadinessOp.makeUnavailable :: l2)) := by
  refine ⟨rfl, ?_, ?_⟩
  · intro r ops
    induction ops generalizing r with
    | nil => rfl
    | cons op rest ih =>
      cases op with
      | read => exact ih r
      | makeUnavailable => exact ih r
  · intro r l1 l2
    simp only [runOps, List.foldl_append, List.foldl_cons]
    rfl

/-- C4: the health handler returns status 200 with body "OK" exactly when the
readiness flag is true, status 503 with body "Shutting down" exactly when it
is false, and these are the only two behaviours. -/
theorem health_endpoint_behaviour :
    (∀ r : ReadinessHandler, r.available = true →
        ServeHTTP r = { status := 200, body := "OK" })
    ∧ (∀ r : ReadinessHandler, r.available = false →
        ServeHTTP r = { status := 503, body := "Shutting down" })
    ∧ (∀ r : ReadinessHandler,
        ServeHTTP r = { status := 200, body := "OK" }
        ∨ ServeHTTP r = { status := 503, body := "Shutting down" }) := by
  refine ⟨?_, ?_, ?_⟩
  · intro r h
    simp [ServeHTTP, h, httpError]
  · intro r h
    simp [ServeHTTP, h, httpError]
  · intro r
    cases hr : r.available
    · right; simp [ServeHTTP, hr, httpError]
    · left; simp [ServeHTTP, hr, httpError]

/-- C4 witness: evaluating the handler at both concrete flag values. -/
theorem health_endpoint_behaviour_witness :
    ServeHTTP { available := true } = { status := 200, body := "OK" }
    ∧ ServeHTTP { available := false } = { status := 503, body := "Shutting down" } :=
  ⟨health_endpoint_behaviour.1 { available := true } rfl,
   health_endpoint_behaviour.2.1 { available := false } rfl⟩

/-- C1: on every run of the shutdown sequence, the drain-delay sleep
precedes the graceful Shutdown call, the Shutdown return precedes the
hard-shutdown sleep whenever that sleep occurs, and the tracer cleanup is
invoked exactly once, as the final action, on both the normal path and the
timeout path. -/
theorem shutdown_ordering :
    ∀ gracefulErr : Bool,
    occursBefore (shutdownSequence gracefulErr)
        (Event.sleep readinessDrainDelay) (Event.shutdownCall shutdownCtxId) = true
    ∧ (gracefulErr = true →
        occursBefore (shutdownSequence gracefulErr)
          (Event.shutdownReturn gracefulErr) (Event.sleep shutdownHardPeriod) = true)
    ∧ (shutdownSequence gracefulErr).count (Event.cleanupCall shutdownCtxId) = 1
    ∧ (shutdownSequence gracefulErr).getLast? = some (Event.cleanupCall shutdownCtxId) := by
  intro gracefulErr
  cases gracefulErr with
  | false =>
    refine ⟨by decide, ?_, by decide, by decide⟩
    intro h
    exact absurd h (by decide)
  | true =>
    refine ⟨by decide, ?_, by decide, by decide⟩
    intro _
    decide

/-- C1 witness: on the timeout path the Shutdown return precedes the
hard-shutdown sleep. -/
theorem shutdown_ordering_witness :
    occursBefore (shutdownSequence true)
      (Event.shutdownReturn true) (Event.sleep shutdownHardPeriod) = true :=
  (shutdown_ordering true).2.1 rfl

/-- C2: the hard-shutdown sleep occurs in the trace if and only if the
graceful Shutdown call returned an error, and in either case the sequence
still ends with the cleanup invocation, after the serving-context
cancellation, with no further escalation. -/
theorem hard_sleep_iff_error :
    ∀ gracefulErr : Bool,
    (shutdownSequence gracefulErr).contains (Event.sleep shutdownHardPeriod) = gracefulErr
    ∧ (shutdownSequence gracefulErr).getLast? = some (Event.cleanupCall shutdownCtxId)
    ∧ occursBefore (shutdownSequence gracefulErr)
        Event.stopOngoingCall (Event.cleanupCall shutdownCtxId) = true := by
  intro gracefulErr
  cases gracefulErr <;> exact ⟨by decide, by decide, by decide⟩

/-- C6: once at least one SIGINT/SIGTERM has been received, delivering any
number of further signals leaves the run of main unchanged (same trace as a
single signal, so the sequence is neither restarted nor short-circuited)
and the cleanup invocation count in the trace stays 1. -/
theorem second_signal_ignored :
    ∀ (signals : Nat) (gracefulErr : Bool), 1 ≤ signals →
    mainRun signals gracefulErr = mainRun 1 gracefulErr
    ∧ ∀ t, mainRun signals gracefulErr = some t →
        t.count (Event.cleanupCall shutdownCtxId) = 1 := by
  intro signals gracefulErr h
  have hdone : rootCtxDone signals = true := by
    simp [rootCtxDone]
    omega
  have hone : rootCtxDone 1 = true := by decide
  constructor
  · simp [mainRun, hdone, hone]
  · intro t ht
    simp [mainRun, hdone] at ht
    subst ht
    cases gracefulErr <;> decide

/-- C6 witness: two signals produce the same run as one. -/
theorem second_signal_ignored_witness :
    mainRun 2 true = mainRun 1 true :=
  (second_signal_ignored 2 true (by decide)).1

/-- C7 counterexample: on the timeout path the serving-context cancellation
(stopOngoingGracefully) happens strictly before the hard-shutdown fallback
sleep and strictly before the cleanup invocation, refuting the claim that
the serving context is cancelled only after fallback and cleanup complete. -/
theorem serving_ctx_cancel_counterexample :
    occursBefore (shutdownSequence true)
      Event.stopOngoingCall (Event.sleep shutdownHardPeriod) = true
    ∧ occursBefore (shutdownSequence true)
        Event.stopOngoingCall (Event.cleanupCall shutdownCtxId) = true := by
  decide

/-- C7 amended: the serving context is not cancelled at signal delivery; it
is cancelled only after the graceful Shutdown call has returned (though
before the hard-shutdown fallback sleep and the cleanup invocation). -/
theorem serving_ctx_cancelled_after_graceful :
    ∀ gracefulErr : Bool,
    occursBefore (shutdownSequence gracefulErr)
      Event.signalReceived Event.stopOngoingCall = true
    ∧ occursBefore (shutdownSequence gracefulErr)
        (Event.shutdownCall shutdownCtxId) Event.stopOngoingCall = true
    ∧ occursBefore (shutdownSequence gracefulErr)
        (Event.shutdownReturn gracefulErr) Event.stopOngoingCall = true := by
  intro gracefulErr
  cases gracefulErr <;> exact ⟨by decide, by decide, by decide⟩

/-- C8: for any completion time of the graceful Shutdown call within its
deadline, the elapsed time from signal receipt to the cleanup invocation is
at least the drain delay and at most drain delay + graceful period + hard
period. -/
theorem shutdown_time_bounds :
    ∀ (gracefulErr : Bool) (finish : Nat), finish ≤ shutdownPeriod →
    readinessDrainDelay ≤ timeToCleanup gracefulErr finish
    ∧ timeToCleanup gracefulErr finish
        ≤ readinessDrainDelay + shutdownPeriod + shutdownHardPeriod := by
  intro gracefulErr finish h
  cases gracefulErr with
  | false =>
    have hs : sleepTotal (shutdownSequence false) = readinessDrainDelay := by decide
    simp [timeToCleanup, shutdownElapsed, hs]
    omega
  | true =>
    have hs : sleepTotal (shutdownSequence true)
        = readinessDrainDelay + shutdownHardPeriod := by decide
    simp [timeToCleanup, shutdownElapsed, hs]
    omega

/-- C8 witness: instant completion on the normal path stays within the
bounds. -/
theorem shutdown_time_bounds_witness :
    readinessDrainDelay ≤ timeToCleanup false 0
    ∧ timeToCleanup false 0
        ≤ readinessDrainDelay + shutdownPeriod + shutdownHardPeriod :=
  shutdown_time_bounds false 0 (by decide)

/-- C5: resource-construction failure panics in both newTracer variants and
exporter-construction failure panics in the part_000 variant, but in
src/cmd/server/tracer.go the error returned by otlptracegrpc.New is ignored
and the function returns a running tracer despite the failed exporter,
contradicting the claimed always-fatal policy. -/
theorem tracer_startup_failure_policy :
    (∀ exporterErr : Bool,
        CmdServer.newTracer true exporterErr = TracerStart.aborts "resource")
    ∧ (∀ exporterErr : Bool,
        Part000.newTracer true exporterErr = TracerStart.aborts "resource")
    ∧ Part000.newTracer false true = TracerStart.aborts "exporter"
    ∧ CmdServer.newTracer false true = TracerStart.runs true :=
  ⟨fun _ => rfl, fun _ => rfl, rfl, rfl⟩

/-- C9 counterexample: at version "1.0.0" and commit "abc123" the attribute
produced by the source is "abc123@1.0.0", which differs from the
"1.0.0@abc123" demanded by the claim. -/
theorem service_version_counterexample :
    serviceVersionString "1.0.0" "abc123" = "abc123@1.0.0"
    ∧ specServiceVersionString "1.0.0" "abc123" = "1.0.0@abc123"
    ∧ (serviceVersionString "1.0.0" "abc123"
        == specServiceVersionString "1.0.0" "abc123") = false := by
  refine ⟨rfl, rfl, ?_⟩
  decide

/-- C9 amended: the service-version attribute is the commit identifier,
then the at-sign, then the version identifier, and its length is the sum of
the two identifier lengths plus one. -/
theorem service_version_amended :
    ∀ version commit : String,
    serviceVersionString version commit = amendedServiceVersionString version commit
    ∧ (serviceVersionString version commit).length
        = commit.length + 1 + version.length := by
  intro version commit
  refine ⟨rfl, ?_⟩
  simp [serviceVersionString, String.length_append]
  decide

/-- C10: the context identifier passed to the cleanup invocation is the one
passed to the graceful Shutdown call (and no other context is used for
either); on the timeout path the cleanup moment lies at or beyond the
shutdown-context deadline, so that context is already expired with no
remaining budget; and the cleanup wrapper returns a log record for every
flush outcome, with the trace ending at the cleanup call regardless of the
flush error. -/
theorem cleanup_context_reuse :
    ∀ (gracefulErr : Bool) (finish : Nat) (flushErr : Option String),
    (shutdownSequence gracefulErr).contains (Event.shutdownCall shutdownCtxId) = true
    ∧ (shutdownSequence gracefulErr).contains (Event.cleanupCall shutdownCtxId) = true
    ∧ (shutdownSequence gracefulErr).all (fun ev =>
        match ev with
        | Event.shutdownCall c => c == shutdownCtxId
        | Event.cleanupCall c => c == shutdownCtxId
        | _ => true) = true
    ∧ (gracefulErr = true →
        ctxExpired shutdownCtxDeadline (timeToCleanup gracefulErr finish) = true)
    ∧ (cleanupWrapper flushErr).msg
        = (if flushErr.isSome then "cleanup tracer failed" else "cleanup tracer succeeded")
    ∧ (shutdownSequence gracefulErr).getLast? = some (Event.cleanupCall shutdownCtxId) := by
  intro gracefulErr finish flushErr
  have hwrap : (cleanupWrapper flushErr).msg
      = (if flushErr.isSome then "cleanup tracer failed" else "cleanup tracer succeeded") := by
    cases flushErr <;> rfl
  cases gracefulErr with
  | false =>
    refine ⟨by decide, by decide, by decide, ?_, hwrap, by decide⟩
    intro h
    exact absurd h (by decide)
  | true =>
    refine ⟨by decide, by decide, by decide, ?_, hwrap, by decide⟩
    intro _
    have hs : sleepTotal (shutdownSequence true)
        = readinessDrainDelay + shutdownHardPeriod := by decide
    simp [ctxExpired, shutdownCtxDeadline, timeToCleanup, shutdownElapsed, hs]

/-- C10 witness: with instant flush bookkeeping, on the timeout path the
shutdown context is already expired at the cleanup moment. -/
theorem cleanup_context_reuse_witness :
    ctxExpired shutdownCtxDeadline (timeToCleanup true 0) = true :=
  (cleanup_context_reuse true 0 none).2.2.2.1 rfl

end K8sTest
